import Mathlib

/-!
Verification of the SAP OData write-safety sequence implemented by
`WorkingSAPService` in `lab-03b-working-sap-agent.py` and
`metadata-driven-sap-agent.py` (the two copies of `get_csrf_token` and
`remove_delivery_block` are logically identical; one embedding covers both).

The embedding is shallow: HTTP responses supplied by the (mocked) service are
an explicit environment, Python exceptions during a request are `Except.error`
values carrying the exception text, and every function additionally returns
the list of HTTP requests it issued, in order, so that temporal properties
("no PATCH is issued unless ...") become statements about that trace.

Python-specific behaviours are modelled exactly:
- `str.replace` and `str.strip` are re-implemented over `List Char`
  (ASCII whitespace) so the kernel can evaluate them;
- truthiness tests (`if csrf_token:`, `if etag:`, `if cookies:`) treat the
  empty string / `None` / the empty list as false;
- `urllib3` header dictionaries are case-insensitive; `get` joins multiple
  values with a comma and `get_all` returns all values for a name.
-/

/-- The empty string, named so literals never directly follow a name. -/
def emptyStr : String := ""

/-- Python `order_id.replace("SO", "")`: delete the non-overlapping
occurrences of the two-character pattern, scanning left to right. -/
def removeSO : List Char → List Char
  | 'S' :: 'O' :: rest => removeSO rest
  | c :: rest => c :: removeSO rest
  | [] => []

/-- ASCII whitespace as stripped by Python `str.strip()`. -/
def isPyWhitespace (c : Char) : Bool :=
  (c == ' ') || (c == '\t') || (c == '\n') || (c == '\r')

/-- Python `s.strip()` restricted to ASCII whitespace. -/
def pyStrip (s : String) : String :=
  String.mk (((s.data.dropWhile isPyWhitespace).reverse.dropWhile isPyWhitespace).reverse)

/-- Source line `clean_order_id = str(order_id).replace('SO', '').strip()`
as it appears in `remove_delivery_block` (both files). -/
def cleanOrderId (order_id : String) : String :=
  pyStrip (String.mk (removeSO order_id.data))

/-- The identical normalisation line as it appears in `read_sales_order`. -/
def readCleanOrderId (order_id : String) : String :=
  pyStrip (String.mk (removeSO order_id.data))

/-- ASCII lower-casing of one character. -/
def lowerChar : Char → Char
  | 'A' => 'a' | 'B' => 'b' | 'C' => 'c' | 'D' => 'd' | 'E' => 'e' | 'F' => 'f'
  | 'G' => 'g' | 'H' => 'h' | 'I' => 'i' | 'J' => 'j' | 'K' => 'k' | 'L' => 'l'
  | 'M' => 'm' | 'N' => 'n' | 'O' => 'o' | 'P' => 'p' | 'Q' => 'q' | 'R' => 'r'
  | 'S' => 's' | 'T' => 't' | 'U' => 'u' | 'V' => 'v' | 'W' => 'w' | 'X' => 'x'
  | 'Y' => 'y' | 'Z' => 'z' | c => c

/-- ASCII lower-casing of a string (header names are ASCII). -/
def lowerStr (s : String) : String := String.mk (s.data.map lowerChar)

/-- Join a list of strings with a separator. -/
def joinWith (sep : String) : List String → String
  | [] => emptyStr
  | [x] => x
  | x :: y :: rest => x ++ sep ++ joinWith sep (y :: rest)

/-- All values stored under a header name, case-insensitively:
`urllib3` `HTTPHeaderDict.get_all`. -/
def headersGetAll (hs : List (String × String)) (k : String) : List String :=
  (hs.filter (fun p => lowerStr p.fst == lowerStr k)).map (fun p => p.snd)

/-- Case-insensitive header lookup: `urllib3` `HTTPHeaderDict.get`, which
joins multiple values for one name with a comma. -/
def headersGet (hs : List (String × String)) (k : String) : Option String :=
  match headersGetAll hs k with
  | [] => none
  | vs => some (joinWith (", ") vs)

/-- Python truthiness of an optional string: `None` and `''` are false. -/
def truthyOpt : Option String → Bool
  | none => false
  | some s => !(s == emptyStr)

/-- Python `a or b` on optional strings: keep `a` when truthy, else `b`. -/
def pyOr (a b : Option String) : Option String :=
  if truthyOpt a then a else b

/-- Python `cookie.split(';')[0]`: the cookie value before its attributes. -/
def cookieFirstPart (c : String) : String :=
  String.mk (takeUntilSemicolon c.data)
where
  takeUntilSemicolon : List Char → List Char
    | [] => []
    | c :: rest => if c == ';' then [] else c :: takeUntilSemicolon rest

/-- Source line `'; '.join([cookie.split(';')[0] for cookie in cookies])`. -/
def joinCookies (cookies : List String) : String :=
  joinWith ("; ") (cookies.map cookieFirstPart)

/-- Decimal digit character. -/
def digitChar : Nat → Char
  | 0 => '0' | 1 => '1' | 2 => '2' | 3 => '3' | 4 => '4'
  | 5 => '5' | 6 => '6' | 7 => '7' | 8 => '8' | _ => '9'

/-- Decimal digits of a natural number (fuel-driven so it reduces). -/
def natDigitsAux : Nat → Nat → List Char
  | 0, _ => []
  | fuel+1, n =>
    if n < 10 then [digitChar n]
    else natDigitsAux fuel (n / 10) ++ [digitChar (n % 10)]

/-- Decimal rendering of a natural number, as Python formats an `int`. -/
def natToStr (n : Nat) : String := String.mk (natDigitsAux (n+1) n)

/-- UTF-8 bytes of one character. -/
def charUtf8 (c : Char) : List Nat :=
  let n := c.toNat
  if n < 128 then [n]
  else if n < 2048 then [192 + n / 64, 128 + n % 64]
  else if n < 65536 then [224 + n / 4096, 128 + n / 64 % 64, 128 + n % 64]
  else [240 + n / 262144, 128 + n / 4096 % 64, 128 + n / 64 % 64, 128 + n % 64]

/-- UTF-8 bytes of a string. -/
def stringUtf8 (s : String) : List Nat := (s.data.map charUtf8).flatten

/-- The base64 alphabet. -/
def base64Alphabet : List Char :=
  "ABCDEFGHIJKLMNOPQRSTUVWXYZabcdefghijklmnopqrstuvwxyz0123456789+/".toList

/-- Character of one 6-bit group. -/
def base64Char (n : Nat) : Char := base64Alphabet.getD n ('A')

/-- Standard base64 of a byte list, with `=` padding. -/
def base64Encode : List Nat → String
  | b0 :: b1 :: b2 :: rest =>
      let n := b0 * 65536 + b1 * 256 + b2
      String.mk [base64Char (n / 262144 % 64), base64Char (n / 4096 % 64),
                 base64Char (n / 64 % 64), base64Char (n % 64)] ++ base64Encode rest
  | [b0, b1] =>
      let n := b0 * 1024 + b1 * 4
      String.mk [base64Char (n / 4096 % 64), base64Char (n / 64 % 64),
                 base64Char (n % 64), '=']
  | [b0] =>
      let n := b0 * 16
      String.mk [base64Char (n / 64 % 64), base64Char (n % 64), '=', '=']
  | [] => emptyStr

/-- Value produced by `urllib3.make_headers(basic_auth=...)`. -/
def basicAuthValue (username password : String) : String :=
  "Basic " ++ base64Encode (stringUtf8 (username ++ ":" ++ password))

/-- An HTTP response as the mocked service returns it. -/
structure HttpResponse where
  status : Nat
  headers : List (String × String)
  body : String
deriving DecidableEq

/-- An HTTP request as the service sends it. -/
structure HttpRequest where
  method : String
  url : String
  headers : List (String × String)
  body : Option String
deriving DecidableEq

/-- `SAPConfig` of the source (`verify_ssl` plays no role in the claims). -/
structure SAPConfig where
  base_url : String
  username : String
  password : String
deriving DecidableEq

/-- The mutable instance state `self.csrf_token` / `self.cookies`. -/
structure SessionState where
  csrf_token : Option String
  cookies : Option String
deriving DecidableEq

/-- Responses the mocked service gives to the (at most) three requests of one
`remove_delivery_block` call; `Except.error` is a raised exception whose
text is the string payload. -/
structure Env where
  tokenResp : Except String HttpResponse
  readResp : Except String HttpResponse
  patchResp : Except String HttpResponse

/-- Result dictionary of `remove_delivery_block`: the success dictionary
carries `message` and `reason`, the failure dictionary carries `error`. -/
inductive RDBResult where
  | success (message reason : String)
  | failure (error : String)
deriving DecidableEq

def hAuthorization : String := "authorization"
def hContentType : String := "Content-Type"
def hAccept : String := "Accept"
def hCsrfToken : String := "x-csrf-token"
def hCookie : String := "Cookie"
def hSetCookie : String := "Set-Cookie"
def hIfMatch : String := "If-Match"
def hETagUpper : String := "ETag"
def hETagLower : String := "etag"
def hETagMixed : String := "Etag"
def appJson : String := "application/json"
def mGET : String := "GET"
def mPATCH : String := "PATCH"
def csrfFetch : String := "fetch"

/-- `get_headers`: basic-auth plus JSON content headers; when `include_csrf`
and a (truthy) token is cached, also the token and the cookie jar. A `None`
cookie jar is rendered as the empty string. -/
def get_headers (cfg : SAPConfig) (st : SessionState) (include_csrf : Bool) :
    List (String × String) :=
  let base := [(hAuthorization, basicAuthValue cfg.username cfg.password),
               (hContentType, appJson), (hAccept, appJson)]
  if include_csrf && truthyOpt st.csrf_token then
    base ++ [(hCsrfToken, st.csrf_token.getD emptyStr),
             (hCookie, st.cookies.getD emptyStr)]
  else base

def servicePath : String := "/sap/opu/odata/sap/API_SALES_ORDER_SRV/"
def formatQuery : String := "?$format=json"
def expandQuery : String := "?$expand=to_Item&$format=json"

/-- Service-root URL used by the token fetch. -/
def serviceRootUrl (cfg : SAPConfig) : String :=
  cfg.base_url ++ servicePath ++ formatQuery

/-- Entity URL `{base}/{service}/A_SalesOrder('{key}')`. -/
def entityUrl (cfg : SAPConfig) (key : String) : String :=
  cfg.base_url ++ servicePath ++ "A_SalesOrder(\x27" ++ key ++ "\x27)"

/-- The GET issued by `get_csrf_token`: service root with header
`x-csrf-token: fetch` added to the plain headers. -/
def tokenRequest (cfg : SAPConfig) (st : SessionState) : HttpRequest :=
  { method := mGET, url := serviceRootUrl cfg,
    headers := get_headers cfg st false ++ [(hCsrfToken, csrfFetch)],
    body := none }

/-- State transition of `get_csrf_token` on the response it received:
on a truthy `x-csrf-token` header the token is cached, the cookie jar is
rebuilt from the `Set-Cookie` values when any are present, and `True` is
returned; otherwise the state is untouched and `False` is returned.
An exception during the request also returns `False`. -/
def get_csrf_token (st : SessionState) (resp : Except String HttpResponse) :
    SessionState × Bool :=
  match resp with
  | Except.error _ => (st, false)
  | Except.ok response =>
    let tokOpt := headersGet response.headers hCsrfToken
    if truthyOpt tokOpt then
      let cookies := headersGetAll response.headers hSetCookie
      ({ csrf_token := tokOpt,
         cookies := if cookies.isEmpty then st.cookies
                    else some (joinCookies cookies) }, true)
    else (st, false)

/-- The stamp-fetch GET of `remove_delivery_block` (step 2). -/
def readRequest (cfg : SAPConfig) (st : SessionState) (clean : String) :
    HttpRequest :=
  { method := mGET, url := entityUrl cfg clean ++ formatQuery,
    headers := get_headers cfg st false, body := none }

/-- Source line `etag = response.headers.get('ETag') or ... ('etag') or
... ('Etag')`, with Python `or` keeping the first truthy value. -/
def extractEtag (headers : List (String × String)) : Option String :=
  pyOr (pyOr (headersGet headers hETagUpper) (headersGet headers hETagLower))
    (headersGet headers hETagMixed)

/-- `json.dumps({"DeliveryBlockReason": ""})`. -/
def updatePayload : String := "\x7b\x22DeliveryBlockReason\x22: \x22\x22\x7d"

/-- The PATCH of `remove_delivery_block` (step 3): CSRF headers, `If-Match`
appended exactly when the extracted stamp is truthy, fixed JSON body. -/
def patchRequest (cfg : SAPConfig) (st : SessionState) (clean : String)
    (etag : Option String) : HttpRequest :=
  { method := mPATCH, url := entityUrl cfg clean,
    headers := get_headers cfg st true ++
      (if truthyOpt etag then [(hIfMatch, etag.getD emptyStr)] else []),
    body := some updatePayload }

def tokenFailMsg : String := "Failed to get CSRF token"

/-- Error text `f'Failed to get order for ETag: {status}'`. -/
def etagFailMsg (status : Nat) : String :=
  "Failed to get order for ETag: " ++ natToStr status

/-- Message text `f'Delivery block removed from order {order_id}'`. -/
def successMsg (order_id : String) : String :=
  "Delivery block removed from order " ++ order_id

/-- Error text `f'Update failed: {status} - {response_text}'`. -/
def updateFailMsg (status : Nat) (body : String) : String :=
  "Update failed: " ++ natToStr status ++ " - " ++ body

/-- Steps 2 and 3 of `remove_delivery_block`, reached only after the CSRF
token was acquired: read the entity (aborting when the read raises or
returns a status other than 200), then issue the PATCH and classify its
status, 200/204 being success. Returns the result dictionary and the
requests these two steps issued. -/
def rdbAfterToken (cfg : SAPConfig) (st1 : SessionState) (env : Env)
    (order_id : String) (reason : String) : RDBResult × List HttpRequest :=
  let clean := cleanOrderId order_id
  let rReq := readRequest cfg st1 clean
  match env.readResp with
  | Except.error e => (RDBResult.failure e, [rReq])
  | Except.ok etagResponse =>
    if etagResponse.status ≠ 200 then
      (RDBResult.failure (etagFailMsg etagResponse.status), [rReq])
    else
      let etag := extractEtag etagResponse.headers
      let pReq := patchRequest cfg st1 clean etag
      match env.patchResp with
      | Except.error e => (RDBResult.failure e, [rReq, pReq])
      | Except.ok response =>
        if response.status = 200 ∨ response.status = 204 then
          (RDBResult.success (successMsg order_id) reason, [rReq, pReq])
        else
          (RDBResult.failure (updateFailMsg response.status response.body),
           [rReq, pReq])

/-- `remove_delivery_block`, returning the result dictionary, the instance
state after the call and the trace of HTTP requests issued, in order.
Step 1 acquires the CSRF token and aborts on failure; the remaining steps
are `rdbAfterToken`. -/
def remove_delivery_block (cfg : SAPConfig) (st : SessionState) (env : Env)
    (order_id : String) (reason : String) :
    RDBResult × SessionState × List HttpRequest :=
  match get_csrf_token st env.tokenResp with
  | (st1, false) => (RDBResult.failure tokenFailMsg, st1, [tokenRequest cfg st])
  | (st1, true) =>
    ((rdbAfterToken cfg st1 env order_id reason).1, st1,
     tokenRequest cfg st :: (rdbAfterToken cfg st1 env order_id reason).2)

/-- Result dictionary of a `remove_delivery_block` call. -/
def rdbResult (cfg : SAPConfig) (st : SessionState) (env : Env)
    (order_id : String) (reason : String) : RDBResult :=
  (remove_delivery_block cfg st env order_id reason).1

/-- Instance state after a `remove_delivery_block` call. -/
def rdbState (cfg : SAPConfig) (st : SessionState) (env : Env)
    (order_id : String) (reason : String) : SessionState :=
  (remove_delivery_block cfg st env order_id reason).2.1

/-- Trace of HTTP requests a `remove_delivery_block` call issued. -/
def rdbTrace (cfg : SAPConfig) (st : SessionState) (env : Env)
    (order_id : String) (reason : String) : List HttpRequest :=
  (remove_delivery_block cfg st env order_id reason).2.2

/-- The GET issued by `read_sales_order`: the entity addressed by the
normalised order id, with `$expand=to_Item`. -/
def readSalesOrderRequest (cfg : SAPConfig) (st : SessionState)
    (order_id : String) : HttpRequest :=
  { method := mGET,
    url := entityUrl cfg (readCleanOrderId order_id) ++ expandQuery,
    headers := get_headers cfg st false, body := none }

/-! Concrete fixtures used by witnesses and counterexamples. -/

/-- A small concrete configuration. -/
def cfg0 : SAPConfig := ⟨"https://sap.example", "u", "p"⟩

/-- Fresh instance state: no token, no cookies. -/
def st0 : SessionState := ⟨none, none⟩

/-- Instance state still holding a stale token and cookie jar. -/
def stOld : SessionState := ⟨some "OLD", some "o=1"⟩

def oid0 : String := "SO4353"
def reason0 : String := "Agent removal"
def reasonAlt : String := "Approved by agent"
def tokenT : String := "T"

/-- Token fetch answered 200 with a token and one cookie. -/
def respTokOk : HttpResponse :=
  ⟨200, [("x-csrf-token", "T"), ("Set-Cookie", "c=1; Path=/")], ""⟩

/-- Entity read answered 200 with a concurrency stamp. -/
def respRead200 : HttpResponse := ⟨200, [("ETag", "W/abc123")], ""⟩

/-- PATCH answered 204 with an empty body. -/
def respPatch204 : HttpResponse := ⟨204, [], ""⟩

/-- Fully successful mocked exchange. -/
def envHappy : Env :=
  ⟨Except.ok respTokOk, Except.ok respRead200, Except.ok respPatch204⟩

/-- A 403 answer carrying no `x-csrf-token` header. -/
def resp403 : HttpResponse := ⟨403, [], ""⟩

/-- Token fetch declined: 403 without a token header. -/
def envTokenFail : Env :=
  ⟨Except.ok resp403, Except.ok respRead200, Except.ok respPatch204⟩

/-- Entity read answered 404. -/
def respRead404 : HttpResponse := ⟨404, [], ""⟩

/-- Read failure: token obtained, then 404 on the entity read. -/
def env404 : Env :=
  ⟨Except.ok respTokOk, Except.ok respRead404, Except.ok respPatch204⟩

/-- PATCH rejected with 412, precondition failed. -/
def respPatch412 : HttpResponse := ⟨412, [], "precondition failed"⟩

/-- Write rejection: token and stamp obtained, then 412 on the PATCH. -/
def env412 : Env :=
  ⟨Except.ok respTokOk, Except.ok respRead200, Except.ok respPatch412⟩

/-- PATCH rejected with 403, token expired. -/
def respPatch403 : HttpResponse := ⟨403, [], "CSRF token validation failed"⟩

/-- Write rejection with 403 after a successful token fetch. -/
def env403patch : Env :=
  ⟨Except.ok respTokOk, Except.ok respRead200, Except.ok respPatch403⟩

/-- A response carrying the `x-csrf-token` header with an empty value. -/
def respEmptyTok : HttpResponse := ⟨200, [("x-csrf-token", "")], ""⟩

/-- A 403 response that nevertheless carries a non-empty token. -/
def resp403tok : HttpResponse := ⟨403, [("x-csrf-token", "T")], ""⟩

/-- Token fetch carrying two cookies with attributes. -/
def respCookies : HttpResponse :=
  ⟨200, [("x-csrf-token", "T"), ("Set-Cookie", "a=1; Path=/"),
         ("Set-Cookie", "b=2; HttpOnly")], ""⟩

/-- Entity read answered 200 without any concurrency stamp. -/
def respReadNoEtag : HttpResponse := ⟨200, [], ""⟩

/-- Exchange whose entity read carries no stamp. -/
def envNoEtag : Env :=
  ⟨Except.ok respTokOk, Except.ok respReadNoEtag, Except.ok respPatch204⟩

/-! Helper lemmas about the embedding. -/

lemma tokenRequest_method (cfg : SAPConfig) (st : SessionState) :
    (tokenRequest cfg st).method = mGET := rfl

lemma readRequest_method (cfg : SAPConfig) (st : SessionState) (c : String) :
    (readRequest cfg st c).method = mGET := rfl

lemma patchRequest_method (cfg : SAPConfig) (st : SessionState) (c : String)
    (e : Option String) : (patchRequest cfg st c e).method = mPATCH := rfl

lemma mGET_ne_mPATCH : mGET ≠ mPATCH := by decide

/-- When the token step fails, `remove_delivery_block` stops at step 1. -/
lemma rdb_token_fail (cfg : SAPConfig) (st : SessionState) (env : Env)
    (order_id reason : String)
    (h : (get_csrf_token st env.tokenResp).2 = false) :
    remove_delivery_block cfg st env order_id reason =
      (RDBResult.failure tokenFailMsg, (get_csrf_token st env.tokenResp).1,
       [tokenRequest cfg st]) := by
  unfold remove_delivery_block
  rcases hg : get_csrf_token st env.tokenResp with ⟨st1, ok⟩
  rw [hg] at h
  simp only at h
  subst h
  simp

/-- When the token step succeeds, the call continues with `rdbAfterToken`. -/
lemma rdb_token_ok (cfg : SAPConfig) (st : SessionState) (env : Env)
    (order_id reason : String)
    (h : (get_csrf_token st env.tokenResp).2 = true) :
    remove_delivery_block cfg st env order_id reason =
      ((rdbAfterToken cfg (get_csrf_token st env.tokenResp).1 env
          order_id reason).1,
       (get_csrf_token st env.tokenResp).1,
       tokenRequest cfg st ::
         (rdbAfterToken cfg (get_csrf_token st env.tokenResp).1 env
           order_id reason).2) := by
  unfold remove_delivery_block
  rcases hg : get_csrf_token st env.tokenResp with ⟨st1, ok⟩
  rw [hg] at h
  simp only at h
  subst h
  simp

/-- A read that raises stops `rdbAfterToken` at step 2. -/
lemma rdbAfterToken_read_error (cfg : SAPConfig) (st1 : SessionState)
    (env : Env) (order_id reason e : String)
    (h : env.readResp = Except.error e) :
    rdbAfterToken cfg st1 env order_id reason =
      (RDBResult.failure e,
       [readRequest cfg st1 (cleanOrderId order_id)]) := by
  unfold rdbAfterToken
  rw [h]

/-- A read with a status other than 200 stops `rdbAfterToken` at step 2. -/
lemma rdbAfterToken_read_bad (cfg : SAPConfig) (st1 : SessionState)
    (env : Env) (order_id reason : String) (rr : HttpResponse)
    (h : env.readResp = Except.ok rr) (hs : rr.status ≠ 200) :
    rdbAfterToken cfg st1 env order_id reason =
      (RDBResult.failure (etagFailMsg rr.status),
       [readRequest cfg st1 (cleanOrderId order_id)]) := by
  unfold rdbAfterToken
  rw [h]
  simp [hs]

/-- A read with status 200 followed by a PATCH answer reaches step 3 and
classifies the PATCH status. -/
lemma rdbAfterToken_patch (cfg : SAPConfig) (st1 : SessionState)
    (env : Env) (order_id reason : String) (rr pr : HttpResponse)
    (h : env.readResp = Except.ok rr) (hs : rr.status = 200)
    (hp : env.patchResp = Except.ok pr) :
    rdbAfterToken cfg st1 env order_id reason =
      ((if pr.status = 200 ∨ pr.status = 204 then
          RDBResult.success (successMsg order_id) reason
        else RDBResult.failure (updateFailMsg pr.status pr.body)),
       [readRequest cfg st1 (cleanOrderId order_id),
        patchRequest cfg st1 (cleanOrderId order_id)
          (extractEtag rr.headers)]) := by
  unfold rdbAfterToken
  rw [h, hp]
  simp only [hs]
  rw [if_neg (show ¬(200 ≠ 200) by simp)]
  split <;> rfl

/-- A read with status 200 followed by a raising PATCH still issues the
PATCH and reports the exception text. -/
lemma rdbAfterToken_patch_error (cfg : SAPConfig) (st1 : SessionState)
    (env : Env) (order_id reason e : String) (rr : HttpResponse)
    (h : env.readResp = Except.ok rr) (hs : rr.status = 200)
    (hp : env.patchResp = Except.error e) :
    rdbAfterToken cfg st1 env order_id reason =
      (RDBResult.failure e,
       [readRequest cfg st1 (cleanOrderId order_id),
        patchRequest cfg st1 (cleanOrderId order_id)
          (extractEtag rr.headers)]) := by
  unfold rdbAfterToken
  rw [h, hp]
  simp [hs]

lemma pyOr_self (a : Option String) : pyOr a a = a := by
  unfold pyOr
  split <;> rfl

/-- The three `ETag` spellings of the source are the same case-insensitive
lookup, so the extracted stamp is just that lookup. -/
lemma extractEtag_eq (hs : List (String × String)) :
    extractEtag hs = headersGet hs hETagUpper := by
  have h1 : lowerStr hETagLower = lowerStr hETagUpper := by decide
  have h2 : lowerStr hETagMixed = lowerStr hETagUpper := by decide
  unfold extractEtag headersGet headersGetAll
  simp only [h1, h2, pyOr_self]

/-- `get_headers` never produces an `If-Match` header itself. -/
lemma ifMatch_not_in_get_headers (cfg : SAPConfig) (st : SessionState)
    (b : Bool) (w : String) : (hIfMatch, w) ∉ get_headers cfg st b := by
  have h1 : hIfMatch ≠ hAuthorization := by decide
  have h2 : hIfMatch ≠ hContentType := by decide
  have h3 : hIfMatch ≠ hAccept := by decide
  have h4 : hIfMatch ≠ hCsrfToken := by decide
  have h5 : hIfMatch ≠ hCookie := by decide
  unfold get_headers
  split <;> simp [Prod.ext_iff, h1, h2, h3, h4, h5]

/-- The state after any `remove_delivery_block` call is exactly the state
the token-acquisition step produced: no other step mutates it. -/
lemma rdbState_eq (cfg : SAPConfig) (st : SessionState) (env : Env)
    (order_id reason : String) :
    rdbState cfg st env order_id reason =
      (get_csrf_token st env.tokenResp).1 := by
  unfold rdbState remove_delivery_block
  rcases hg : get_csrf_token st env.tokenResp with ⟨st1, ok⟩
  cases ok <;> rfl

/-- Every `remove_delivery_block` call issues the token fetch first. -/
lemma rdbTrace_head (cfg : SAPConfig) (st : SessionState) (env : Env)
    (order_id reason : String) :
    (rdbTrace cfg st env order_id reason).head? =
      some (tokenRequest cfg st) := by
  unfold rdbTrace remove_delivery_block
  rcases hg : get_csrf_token st env.tokenResp with ⟨st1, ok⟩
  cases ok <;> rfl

/-- The requests issued after the token step do not depend on `reason`. -/
lemma rdbAfterToken_trace_reason (cfg : SAPConfig) (st1 : SessionState)
    (env : Env) (order_id r1 r2 : String) :
    (rdbAfterToken cfg st1 env order_id r1).2 =
      (rdbAfterToken cfg st1 env order_id r2).2 := by
  unfold rdbAfterToken
  rcases hr : env.readResp with e | rr
  · simp only [hr]
  · simp only [hr]
    by_cases hs : rr.status ≠ 200
    · rw [if_pos hs, if_pos hs]
    · rw [if_neg hs, if_neg hs]
      rcases hp : env.patchResp with e | pr
      · simp only [hp]
      · simp only [hp]
        by_cases hc : pr.status = 200 ∨ pr.status = 204
        · rw [if_pos hc, if_pos hc]
        · rw [if_neg hc, if_neg hc]

/-- The whole request trace does not depend on `reason`. -/
lemma rdbTrace_reason (cfg : SAPConfig) (st : SessionState) (env : Env)
    (order_id r1 r2 : String) :
    rdbTrace cfg st env order_id r1 = rdbTrace cfg st env order_id r2 := by
  unfold rdbTrace remove_delivery_block
  rcases hg : get_csrf_token st env.tokenResp with ⟨st1, ok⟩
  cases ok
  · rfl
  · simp only
    rw [rdbAfterToken_trace_reason cfg st1 env order_id r1 r2]

/-! Claim theorems. -/

/-- C1: the PATCH write is never issued unless `get_csrf_token` returned
success in the same call; and when the token-fetch response carries no
`x-csrf-token` header, `get_csrf_token` returns failure and
`remove_delivery_block` returns the token-error dictionary having issued
only the token-fetch request. -/
theorem csrf_write_gate (cfg : SAPConfig) (st : SessionState) (env : Env)
    (order_id reason : String) :
    ((∃ r ∈ rdbTrace cfg st env order_id reason, r.method = mPATCH) →
        (get_csrf_token st env.tokenResp).2 = true) ∧
    (∀ r, env.tokenResp = Except.ok r →
        headersGet r.headers hCsrfToken = none →
        rdbResult cfg st env order_id reason =
          RDBResult.failure tokenFailMsg ∧
        rdbTrace cfg st env order_id reason = [tokenRequest cfg st]) := by
  constructor
  · intro hmem
    by_contra hne
    have hf : (get_csrf_token st env.tokenResp).2 = false := by
      cases hh : (get_csrf_token st env.tokenResp).2
      · rfl
      · exact absurd hh hne
    unfold rdbTrace at hmem
    rw [rdb_token_fail cfg st env order_id reason hf] at hmem
    simp only [List.mem_singleton] at hmem
    rcases hmem with ⟨r, hr, hm⟩
    subst hr
    rw [tokenRequest_method] at hm
    exact mGET_ne_mPATCH hm
  · intro r hres hnone
    have hf : (get_csrf_token st env.tokenResp).2 = false := by
      rw [hres]
      simp [get_csrf_token, hnone, truthyOpt]
    constructor
    · unfold rdbResult
      rw [rdb_token_fail cfg st env order_id reason hf]
    · unfold rdbTrace
      rw [rdb_token_fail cfg st env order_id reason hf]

/-- C1 witness: a mocked 403 token-fetch answer without an `x-csrf-token`
header makes the call fail with the token error after one request. -/
theorem csrf_write_gate_witness :
    rdbResult cfg0 st0 envTokenFail oid0 reason0 =
      RDBResult.failure tokenFailMsg ∧
    rdbTrace cfg0 st0 envTokenFail oid0 reason0 = [tokenRequest cfg0 st0] :=
  (csrf_write_gate cfg0 st0 envTokenFail oid0 reason0).2 resp403
    (by rfl) (by rfl)

/-- C3: a PATCH appears in the trace of an update call exactly when both
the CSRF token step succeeded and the stamp-fetch read of the entity
completed with status 200 (the stamp itself may be absent, which the
source checks and accepts); when either precondition fails, no write is
attempted. -/
theorem write_precondition_invariant (cfg : SAPConfig) (st : SessionState)
    (env : Env) (order_id reason : String) :
    (∃ r ∈ rdbTrace cfg st env order_id reason, r.method = mPATCH) ↔
      ((get_csrf_token st env.tokenResp).2 = true ∧
       ∃ rr, env.readResp = Except.ok rr ∧ rr.status = 200) := by
  constructor
  · intro hmem
    cases hok : (get_csrf_token st env.tokenResp).2
    · exfalso
      unfold rdbTrace at hmem
      rw [rdb_token_fail cfg st env order_id reason hok] at hmem
      simp only [List.mem_singleton] at hmem
      rcases hmem with ⟨r, hr, hm⟩
      subst hr
      rw [tokenRequest_method] at hm
      exact mGET_ne_mPATCH hm
    · refine ⟨rfl, ?_⟩
      unfold rdbTrace at hmem
      rw [rdb_token_ok cfg st env order_id reason hok] at hmem
      rcases hread : env.readResp with e | rr
      · exfalso
        rw [rdbAfterToken_read_error cfg _ env order_id reason e hread]
          at hmem
        simp only [List.mem_cons, List.mem_singleton, List.not_mem_nil,
          or_false] at hmem
        rcases hmem with ⟨r, hr | hr, hm⟩ <;> subst hr
        · rw [tokenRequest_method] at hm
          exact mGET_ne_mPATCH hm
        · rw [readRequest_method] at hm
          exact mGET_ne_mPATCH hm
      · by_cases hs : rr.status = 200
        · exact ⟨rr, rfl, hs⟩
        · exfalso
          rw [rdbAfterToken_read_bad cfg _ env order_id reason rr hread hs]
            at hmem
          simp only [List.mem_cons, List.mem_singleton, List.not_mem_nil,
            or_false] at hmem
          rcases hmem with ⟨r, hr | hr, hm⟩ <;> subst hr
          · rw [tokenRequest_method] at hm
            exact mGET_ne_mPATCH hm
          · rw [readRequest_method] at hm
            exact mGET_ne_mPATCH hm
  · rintro ⟨htok, rr, hread, hs⟩
    unfold rdbTrace
    rw [rdb_token_ok cfg st env order_id reason htok]
    rcases hp : env.patchResp with e | pr
    · rw [rdbAfterToken_patch_error cfg _ env order_id reason e rr hread hs
        hp]
      exact ⟨patchRequest cfg (get_csrf_token st env.tokenResp).1
        (cleanOrderId order_id) (extractEtag rr.headers), by simp,
        patchRequest_method cfg _ _ _⟩
    · rw [rdbAfterToken_patch cfg _ env order_id reason rr pr hread hs hp]
      exact ⟨patchRequest cfg (get_csrf_token st env.tokenResp).1
        (cleanOrderId order_id) (extractEtag rr.headers), by simp,
        patchRequest_method cfg _ _ _⟩

/-- C3 witness: in the fully successful mocked exchange a PATCH is issued,
and the preconditions indeed hold there. -/
theorem write_precondition_invariant_witness :
    ∃ r ∈ rdbTrace cfg0 st0 envHappy oid0 reason0, r.method = mPATCH :=
  (write_precondition_invariant cfg0 st0 envHappy oid0 reason0).mpr
    ⟨by decide, respRead200, rfl, rfl⟩

/-- C4: when the token step succeeded and the stamp-fetch read answers a
non-2xx status, the call returns the not-found failure carrying that
status and never issues a PATCH. -/
theorem read_failure_aborts_write (cfg : SAPConfig) (st : SessionState)
    (env : Env) (order_id reason : String) (rr : HttpResponse)
    (htok : (get_csrf_token st env.tokenResp).2 = true)
    (hread : env.readResp = Except.ok rr)
    (hstatus : rr.status < 200 ∨ 300 ≤ rr.status) :
    rdbResult cfg st env order_id reason =
      RDBResult.failure (etagFailMsg rr.status) ∧
    ∀ r ∈ rdbTrace cfg st env order_id reason, r.method ≠ mPATCH := by
  have hne : rr.status ≠ 200 := by omega
  have h2 := rdbAfterToken_read_bad cfg (get_csrf_token st env.tokenResp).1
    env order_id reason rr hread hne
  constructor
  · unfold rdbResult
    rw [rdb_token_ok cfg st env order_id reason htok, h2]
  · unfold rdbTrace
    rw [rdb_token_ok cfg st env order_id reason htok, h2]
    intro r hr
    simp only [List.mem_cons, List.mem_singleton, List.not_mem_nil,
      or_false] at hr
    rcases hr with hr | hr <;> subst hr
    · rw [tokenRequest_method]
      exact mGET_ne_mPATCH
    · rw [readRequest_method]
      exact mGET_ne_mPATCH

/-- C4 witness: a mocked 404 on the entity read yields the not-found
failure and a PATCH-free trace. -/
theorem read_failure_aborts_write_witness :
    rdbResult cfg0 st0 env404 oid0 reason0 =
      RDBResult.failure (etagFailMsg 404) ∧
    ∀ r ∈ rdbTrace cfg0 st0 env404 oid0 reason0, r.method ≠ mPATCH := by
  have h := read_failure_aborts_write cfg0 st0 env404 oid0 reason0
    respRead404 (by decide) rfl (by right; decide)
  exact h

/-- C2: when an update call reaches the write step (token acquired, read
answered 200), the issued PATCH carries `If-Match` equal to exactly the
stamp the read returned, whenever the case-insensitive `ETag` lookup (the
source checks the spellings ETag/etag/Etag, all the same lookup against
the case-insensitive header dictionary) yields a non-empty stamp; when no
stamp is present the PATCH carries no `If-Match` header and is still
issued. -/
theorem if_match_carries_stamp (cfg : SAPConfig) (st : SessionState)
    (env : Env) (order_id reason : String) (rr : HttpResponse)
    (htok : (get_csrf_token st env.tokenResp).2 = true)
    (hread : env.readResp = Except.ok rr) (hs : rr.status = 200) :
    ∃ pr, rdbTrace cfg st env order_id reason =
        [tokenRequest cfg st,
         readRequest cfg (get_csrf_token st env.tokenResp).1
           (cleanOrderId order_id), pr] ∧
      pr.method = mPATCH ∧
      (∀ v, headersGet rr.headers hETagUpper = some v → v ≠ emptyStr →
        (hIfMatch, v) ∈ pr.headers) ∧
      (headersGet rr.headers hETagUpper = none →
        ∀ w, (hIfMatch, w) ∉ pr.headers) := by
  refine ⟨patchRequest cfg (get_csrf_token st env.tokenResp).1
    (cleanOrderId order_id) (extractEtag rr.headers), ?_, rfl, ?_, ?_⟩
  · unfold rdbTrace
    rcases hp : env.patchResp with e | pr2
    · rw [rdb_token_ok cfg st env order_id reason htok,
        rdbAfterToken_patch_error cfg _ env order_id reason e rr hread hs hp]
    · rw [rdb_token_ok cfg st env order_id reason htok,
        rdbAfterToken_patch cfg _ env order_id reason rr pr2 hread hs hp]
  · intro v hv hne
    have he : extractEtag rr.headers = some v := by
      rw [extractEtag_eq, hv]
    unfold patchRequest
    rw [he]
    have ht : truthyOpt (some v) = true := by
      simp [truthyOpt, hne]
    simp [ht]
  · intro hnone w
    have he : extractEtag rr.headers = none := by
      rw [extractEtag_eq, hnone]
    unfold patchRequest
    rw [he]
    simp only [truthyOpt, if_false, List.append_nil, Bool.false_eq_true]
    exact fun hmem => ifMatch_not_in_get_headers cfg _ true w
      (by simpa using hmem)

/-- C2 witness: with a mocked read returning `ETag: W/abc123` the PATCH
carries `If-Match: W/abc123`; with a stamp-free read the PATCH carries no
`If-Match` and is still issued. -/
theorem if_match_carries_stamp_witness :
    (∃ pr, rdbTrace cfg0 st0 envHappy oid0 reason0 =
        [tokenRequest cfg0 st0,
         readRequest cfg0 (get_csrf_token st0 envHappy.tokenResp).1
           (cleanOrderId oid0), pr] ∧
      pr.method = mPATCH ∧ (hIfMatch, "W/abc123") ∈ pr.headers) ∧
    (∃ pr, rdbTrace cfg0 st0 envNoEtag oid0 reason0 =
        [tokenRequest cfg0 st0,
         readRequest cfg0 (get_csrf_token st0 envNoEtag.tokenResp).1
           (cleanOrderId oid0), pr] ∧
      pr.method = mPATCH ∧ ∀ w, (hIfMatch, w) ∉ pr.headers) := by
  constructor
  · obtain ⟨pr, h1, h2, h3, h4⟩ := if_match_carries_stamp cfg0 st0 envHappy
      oid0 reason0 respRead200 (by decide) rfl rfl
    exact ⟨pr, h1, h2, h3 ("W/abc123") (by decide) (by decide)⟩
  · obtain ⟨pr, h1, h2, h3, h4⟩ := if_match_carries_stamp cfg0 st0 envNoEtag
      oid0 reason0 respReadNoEtag (by decide) rfl rfl
    exact ⟨pr, h1, h2, h4 (by decide)⟩

/-- C5: once the write step is reached, the PATCH answer is classified as
success exactly on status 200 or 204 (the body plays no role in success,
so an empty 204 body is fine) and as the update-failed dictionary carrying
the status and the raw body otherwise; the call issues exactly one PATCH,
with no retry. -/
theorem patch_response_classification (cfg : SAPConfig) (st : SessionState)
    (env : Env) (order_id reason : String) (rr pr : HttpResponse)
    (htok : (get_csrf_token st env.tokenResp).2 = true)
    (hread : env.readResp = Except.ok rr) (hs : rr.status = 200)
    (hp : env.patchResp = Except.ok pr) :
    rdbResult cfg st env order_id reason =
      (if pr.status = 200 ∨ pr.status = 204 then
         RDBResult.success (successMsg order_id) reason
       else RDBResult.failure (updateFailMsg pr.status pr.body)) ∧
    (rdbTrace cfg st env order_id reason).countP
      (fun r => r.method == mPATCH) = 1 := by
  have h2 := rdbAfterToken_patch cfg (get_csrf_token st env.tokenResp).1 env
    order_id reason rr pr hread hs hp
  constructor
  · unfold rdbResult
    rw [rdb_token_ok cfg st env order_id reason htok, h2]
  · unfold rdbTrace
    rw [rdb_token_ok cfg st env order_id reason htok, h2]
    have hg : ((tokenRequest cfg st).method == mPATCH) = false := by
      rw [tokenRequest_method]
      decide
    have hr2 : ((readRequest cfg (get_csrf_token st env.tokenResp).1
        (cleanOrderId order_id)).method == mPATCH) = false := by
      rw [readRequest_method]
      decide
    have hpm : ((patchRequest cfg (get_csrf_token st env.tokenResp).1
        (cleanOrderId order_id) (extractEtag rr.headers)).method ==
          mPATCH) = true := by
      rw [patchRequest_method]
      decide
    simp [List.countP_cons, hg, hr2, hpm]

/-- C5 witness: a mocked 412 PATCH answer yields the update-failed
dictionary carrying status 412 and its body, after exactly one PATCH. -/
theorem patch_response_classification_witness :
    rdbResult cfg0 st0 env412 oid0 reason0 =
      RDBResult.failure (updateFailMsg 412 ("precondition failed")) ∧
    (rdbTrace cfg0 st0 env412 oid0 reason0).countP
      (fun r => r.method == mPATCH) = 1 := by
  have h := patch_response_classification cfg0 st0 env412 oid0 reason0
    respRead200 respPatch412 (by decide) rfl rfl rfl
  refine ⟨?_, h.2⟩
  rw [h.1]
  decide

/-- C6: on a successful token acquisition whose response carries
`Set-Cookie` headers, the cached cookie jar is the received cookie values,
each truncated at its first semicolon, joined by a semicolon and space. -/
theorem cookie_header_join (st : SessionState) (r : HttpResponse)
    (cookies : List String)
    (htok : truthyOpt (headersGet r.headers hCsrfToken) = true)
    (hcookies : headersGetAll r.headers hSetCookie = cookies)
    (hne : cookies ≠ []) :
    (get_csrf_token st (Except.ok r)).1.cookies =
      some (joinCookies cookies) := by
  have hstep : get_csrf_token st (Except.ok r) =
      ({ csrf_token := headersGet r.headers hCsrfToken,
         cookies := if (headersGetAll r.headers hSetCookie).isEmpty
                    then st.cookies
                    else some (joinCookies
                      (headersGetAll r.headers hSetCookie)) }, true) := by
    unfold get_csrf_token
    simp [htok]
  rw [hstep]
  simp only [hcookies]
  rcases cookies with _ | ⟨c, cs⟩
  · exact absurd rfl hne
  · simp [List.isEmpty]

/-- C6 witness: from `Set-Cookie: a=1; Path=/` and `Set-Cookie: b=2;
HttpOnly` the cached `Cookie` value is exactly `a=1; b=2`. -/
theorem cookie_header_join_witness :
    (get_csrf_token st0 (Except.ok respCookies)).1.cookies =
      some ("a=1; b=2") := by
  have h := cookie_header_join st0 respCookies
    (headersGetAll respCookies.headers hSetCookie) (by decide) rfl
    (by decide)
  rw [h]
  decide

/-- C7 counterexample: the cached token state is never cleared on a 403
response. A 403 token-fetch answer without a token leaves the stale state
fully intact, and a 403-rejected PATCH leaves the freshly cached token in
place; in neither case is the state invalidated to `None`. -/
theorem token_state_counterexample :
    (get_csrf_token stOld (Except.ok resp403)).1 = stOld ∧
    stOld.csrf_token = some ("OLD") ∧
    rdbState cfg0 stOld env403patch oid0 reason0 =
      SessionState.mk (some tokenT) (some ("c=1")) := by decide

/-- C7 amended: the cached session token state is mutated only by the
token-acquisition step — after any `remove_delivery_block` call the state
is exactly what `get_csrf_token` produced — and instead of invalidating it
on 403, every call unconditionally re-acquires the token by issuing the
token fetch as its first request. -/
theorem token_state_ownership (cfg : SAPConfig) (st : SessionState)
    (env : Env) (order_id reason : String) :
    rdbState cfg st env order_id reason =
      (get_csrf_token st env.tokenResp).1 ∧
    (rdbTrace cfg st env order_id reason).head? =
      some (tokenRequest cfg st) :=
  ⟨rdbState_eq cfg st env order_id reason,
   rdbTrace_head cfg st env order_id reason⟩

/-- C8: every PATCH the call issues has exactly the fixed JSON body
clearing the delivery-block-reason field, and the caller-supplied reason
argument influences neither the trace nor the state (only the returned
dictionary). -/
theorem patch_payload_fixed (cfg : SAPConfig) (st : SessionState)
    (env : Env) (order_id r1 r2 : String) :
    (∀ req ∈ rdbTrace cfg st env order_id r1, req.method = mPATCH →
       req.body = some updatePayload) ∧
    rdbTrace cfg st env order_id r1 = rdbTrace cfg st env order_id r2 ∧
    rdbState cfg st env order_id r1 = rdbState cfg st env order_id r2 := by
  refine ⟨?_, rdbTrace_reason cfg st env order_id r1 r2,
    by rw [rdbState_eq, rdbState_eq]⟩
  intro req hmem hm
  cases hok : (get_csrf_token st env.tokenResp).2
  · unfold rdbTrace at hmem
    rw [rdb_token_fail cfg st env order_id r1 hok] at hmem
    simp only [List.mem_singleton] at hmem
    subst hmem
    rw [tokenRequest_method] at hm
    exact absurd hm mGET_ne_mPATCH
  · unfold rdbTrace at hmem
    rw [rdb_token_ok cfg st env order_id r1 hok] at hmem
    rcases hread : env.readResp with e | rr
    · rw [rdbAfterToken_read_error cfg _ env order_id r1 e hread] at hmem
      simp only [List.mem_cons, List.mem_singleton, List.not_mem_nil,
        or_false] at hmem
      rcases hmem with hmem | hmem <;> subst hmem
      · rw [tokenRequest_method] at hm
        exact absurd hm mGET_ne_mPATCH
      · rw [readRequest_method] at hm
        exact absurd hm mGET_ne_mPATCH
    · by_cases hs : rr.status = 200
      · have htrace : tokenRequest cfg st ::
            (rdbAfterToken cfg (get_csrf_token st env.tokenResp).1 env
              order_id r1).2 =
            [tokenRequest cfg st,
             readRequest cfg (get_csrf_token st env.tokenResp).1
               (cleanOrderId order_id),
             patchRequest cfg (get_csrf_token st env.tokenResp).1
               (cleanOrderId order_id) (extractEtag rr.headers)] := by
          rcases hp : env.patchResp with e | pr
          · rw [rdbAfterToken_patch_error cfg _ env order_id r1 e rr hread
              hs hp]
          · rw [rdbAfterToken_patch cfg _ env order_id r1 rr pr hread hs hp]
        rw [htrace] at hmem
        simp only [List.mem_cons, List.mem_singleton, List.not_mem_nil,
          or_false] at hmem
        rcases hmem with hmem | hmem | hmem <;> subst hmem
        · rw [tokenRequest_method] at hm
          exact absurd hm mGET_ne_mPATCH
        · rw [readRequest_method] at hm
          exact absurd hm mGET_ne_mPATCH
        · rfl
      · rw [rdbAfterToken_read_bad cfg _ env order_id r1 rr hread hs]
          at hmem
        simp only [List.mem_cons, List.mem_singleton, List.not_mem_nil,
          or_false] at hmem
        rcases hmem with hmem | hmem <;> subst hmem
        · rw [tokenRequest_method] at hm
          exact absurd hm mGET_ne_mPATCH
        · rw [readRequest_method] at hm
          exact absurd hm mGET_ne_mPATCH

/-- C8 witness: in the successful mocked exchange the issued PATCH carries
the fixed body, and changing the reason argument leaves the trace
unchanged. -/
theorem patch_payload_fixed_witness :
    (patchRequest cfg0 (get_csrf_token st0 envHappy.tokenResp).1
      (cleanOrderId oid0) (extractEtag respRead200.headers)).body =
        some updatePayload ∧
    rdbTrace cfg0 st0 envHappy oid0 reason0 =
      rdbTrace cfg0 st0 envHappy oid0 reasonAlt := by
  have h := patch_payload_fixed cfg0 st0 envHappy oid0 reason0 reasonAlt
  exact ⟨h.1 (patchRequest cfg0 (get_csrf_token st0 envHappy.tokenResp).1
      (cleanOrderId oid0) (extractEtag respRead200.headers))
    (by decide) (by decide), h.2.1⟩

/-- C9 counterexample: a response that carries the `x-csrf-token` header
with an empty value is treated as failure — the source tests the value's
truthiness, not the header's presence. -/
theorem token_presence_counterexample :
    headersGet respEmptyTok.headers hCsrfToken = some emptyStr ∧
    get_csrf_token st0 (Except.ok respEmptyTok) = (st0, false) := by decide

/-- C9 amended: `get_csrf_token` classifies success solely by the presence
of a non-empty `x-csrf-token` header value, never inspecting the HTTP
status: a response with a non-empty token header succeeds and caches the
token at any status, and failure arises exactly when the header is absent
or empty, or when the request raised. -/
theorem token_success_criterion (st : SessionState) (r : HttpResponse) :
    ((get_csrf_token st (Except.ok r)).2 = true ↔
      truthyOpt (headersGet r.headers hCsrfToken) = true) ∧
    (∀ tok, headersGet r.headers hCsrfToken = some tok → tok ≠ emptyStr →
      (get_csrf_token st (Except.ok r)).1.csrf_token = some tok) ∧
    (∀ s, get_csrf_token st
      (Except.ok (HttpResponse.mk s r.headers r.body)) =
      get_csrf_token st (Except.ok r)) ∧
    (∀ e, get_csrf_token st (Except.error e) = (st, false)) := by
  refine ⟨?_, ?_, fun s => rfl, fun e => rfl⟩
  · unfold get_csrf_token
    cases h : truthyOpt (headersGet r.headers hCsrfToken)
    · simp [h]
    · simp [h]
  · intro tok htok hne
    unfold get_csrf_token
    have ht2 : truthyOpt (some tok) = true := by
      simp [truthyOpt, hne]
    simp [htok, ht2]

/-- C9 witness: a mocked 403 answer that still carries a non-empty token
header yields success with the token cached. -/
theorem token_success_criterion_witness :
    (get_csrf_token st0 (Except.ok resp403tok)).2 = true ∧
    (get_csrf_token st0 (Except.ok resp403tok)).1.csrf_token =
      some tokenT := by
  have h := token_success_criterion st0 resp403tok
  exact ⟨h.1.mpr (by decide), h.2.1 tokenT (by decide) (by decide)⟩

/-- Every request in a `remove_delivery_block` trace is the token fetch,
the stamp-fetch read, or the PATCH, the latter two addressed by the
normalised order id. -/
lemma rdbTrace_mem (cfg : SAPConfig) (st : SessionState) (env : Env)
    (order_id reason : String) (r : HttpRequest)
    (hmem : r ∈ rdbTrace cfg st env order_id reason) :
    r = tokenRequest cfg st ∨
    r = readRequest cfg (get_csrf_token st env.tokenResp).1
      (cleanOrderId order_id) ∨
    ∃ e, r = patchRequest cfg (get_csrf_token st env.tokenResp).1
      (cleanOrderId order_id) e := by
  cases hok : (get_csrf_token st env.tokenResp).2
  · unfold rdbTrace at hmem
    rw [rdb_token_fail cfg st env order_id reason hok] at hmem
    simp only [List.mem_singleton] at hmem
    exact Or.inl hmem
  · unfold rdbTrace at hmem
    rw [rdb_token_ok cfg st env order_id reason hok] at hmem
    rcases hread : env.readResp with e | rr
    · rw [rdbAfterToken_read_error cfg _ env order_id reason e hread]
        at hmem
      simp only [List.mem_cons, List.mem_singleton, List.not_mem_nil,
        or_false] at hmem
      rcases hmem with hmem | hmem
      · exact Or.inl hmem
      · exact Or.inr (Or.inl hmem)
    · by_cases hs : rr.status = 200
      · have htrace : tokenRequest cfg st ::
            (rdbAfterToken cfg (get_csrf_token st env.tokenResp).1 env
              order_id reason).2 =
            [tokenRequest cfg st,
             readRequest cfg (get_csrf_token st env.tokenResp).1
               (cleanOrderId order_id),
             patchRequest cfg (get_csrf_token st env.tokenResp).1
               (cleanOrderId order_id) (extractEtag rr.headers)] := by
          rcases hp : env.patchResp with e | pr
          · rw [rdbAfterToken_patch_error cfg _ env order_id reason e rr
              hread hs hp]
          · rw [rdbAfterToken_patch cfg _ env order_id reason rr pr hread
              hs hp]
        rw [htrace] at hmem
        simp only [List.mem_cons, List.mem_singleton, List.not_mem_nil,
          or_false] at hmem
        rcases hmem with hmem | hmem | hmem
        · exact Or.inl hmem
        · exact Or.inr (Or.inl hmem)
        · exact Or.inr (Or.inr ⟨extractEtag rr.headers, hmem⟩)
      · rw [rdbAfterToken_read_bad cfg _ env order_id reason rr hread hs]
          at hmem
        simp only [List.mem_cons, List.mem_singleton, List.not_mem_nil,
          or_false] at hmem
        rcases hmem with hmem | hmem
        · exact Or.inl hmem
        · exact Or.inr (Or.inl hmem)

/-- C10: `read_sales_order` and `remove_delivery_block` normalise the
caller-supplied order id identically — every occurrence of `SO` deleted
and surrounding whitespace stripped — so equal inputs address the same
entity key in the read URL and in all write-path URLs; `SO4353`,
` 4353 ` and `4353` all normalise to the key `4353`, and an id with an
interior `SO` is silently altered as well. -/
theorem order_id_normalisation :
    (∀ oid, readCleanOrderId oid = cleanOrderId oid) ∧
    (∀ cfg st oid, (readSalesOrderRequest cfg st oid).url =
        entityUrl cfg (readCleanOrderId oid) ++ expandQuery) ∧
    (∀ cfg st env oid reason r, r ∈ rdbTrace cfg st env oid reason →
        r.url = serviceRootUrl cfg ∨
        r.url = entityUrl cfg (cleanOrderId oid) ++ formatQuery ∨
        r.url = entityUrl cfg (cleanOrderId oid)) ∧
    cleanOrderId ("SO4353") = "4353" ∧
    cleanOrderId (" 4353 ") = "4353" ∧
    cleanOrderId ("4353") = "4353" ∧
    cleanOrderId ("43SO53") = "4353" ∧
    cleanOrderId ("43SO53") ≠ "43SO53" := by
  refine ⟨fun oid => rfl, fun cfg st oid => rfl, ?_, by decide, by decide,
    by decide, by decide, by decide⟩
  intro cfg st env oid reason r hmem
  rcases rdbTrace_mem cfg st env oid reason r hmem with h | h | ⟨e, h⟩
    <;> subst h
  · exact Or.inl rfl
  · exact Or.inr (Or.inl rfl)
  · exact Or.inr (Or.inr rfl)

/-- C10 witness: the token fetch of the successful mocked exchange indeed
targets one of the three URL shapes. -/
theorem order_id_normalisation_witness :
    (tokenRequest cfg0 st0).url = serviceRootUrl cfg0 ∨
    (tokenRequest cfg0 st0).url =
      entityUrl cfg0 (cleanOrderId oid0) ++ formatQuery ∨
    (tokenRequest cfg0 st0).url = entityUrl cfg0 (cleanOrderId oid0) :=
  order_id_normalisation.2.2.1 cfg0 st0 envHappy oid0 reason0
    (tokenRequest cfg0 st0) (by decide)
